import Mathlib

/-!
Verification of the verified-download protocol implemented in
`cloudsmith/data_source_package.go` of the terraform-provider-cloudsmith
repository.

The Go source is shallowly embedded as executable Lean definitions:

* `Checksums`, `checksumMismatchError`, `errMsgFor`, `mismatchB` embed the
  checksum record, the mismatch-report line builder, the report accumulation
  of lines 117-131, and the four-way comparison of lines 89/109/117.
* `pathBase`, `pathJoin`, `pathClean` embed Go's `path.Base`, `path.Join`
  and `path.Clean` (the standard library functions the source calls at
  lines 183-184), translated operation for operation.
* `downloadPackage` embeds the download routine of lines 149-198.  External
  collaborators (the HTTP transport, the URL parser, the local filesystem)
  are supplied through a `DLEnv` record holding the result each collaborator
  call produces during one invocation; the request payload (the
  Authorization header and, when `bustCache` is set, the rewritten query
  string carrying the timestamp) only influences the transport's answer,
  which the environment already fixes.
* `dataSourcePackageRead` embeds the read/verify/retry state machine of
  lines 35-147, with the metadata lookup, the two download invocations and
  the two digest computations supplied through a `ReadEnv`.  The returned
  `ReadResult` records the trace of download invocations (the `bustCache`
  flag each one was given), the number of digest computations, and either
  the propagated error or the terminal `Outcome`.
* `calculateChecksums` embeds the single-pass multi-accumulator digest
  computation of lines 200-224.  The file contents arrive as the sequence
  of chunks `io.Copy` hands to the `io.MultiWriter`; each `hash.Hash` obeys
  the Go hash contract (`Write` absorbs bytes, `Sum(nil)` finalizes over
  exactly the absorbed bytes), so one algorithm is a pure function from the
  absorbed byte sequence to its hex digest string.
-/

set_option autoImplicit false

namespace Cloudsmith

/-- Embeds the Go struct `Checksums` (data_source_package.go lines 23-28). -/
structure Checksums where
  MD5 : String
  SHA1 : String
  SHA256 : String
  SHA512 : String
deriving DecidableEq

/-- Embeds `checksumMismatchError` (lines 30-33): the `fmt.Sprintf` call with
format string `Checksum mismatch (%s): expected=%s, got=%s` receives the
arguments in declaration order, so `localChecksum` fills the parentheses,
`remoteChecksum` follows `expected=` and `checksumType` follows `got=`. -/
def checksumMismatchError (localChecksum remoteChecksum checksumType : String) : String :=
  "Checksum mismatch (" ++ localChecksum ++ "): expected=" ++ remoteChecksum ++
    ", got=" ++ checksumType

/-- The package metadata fields the verification protocol consumes, as
returned by the metadata lookup (`pkg.GetCdnUrl`, `pkg.GetChecksumMd5`,
`pkg.GetChecksumSha1`, `pkg.GetChecksumSha256`, `pkg.GetChecksumSha512`);
an absent checksum surfaces as the empty string, the getters' zero value. -/
structure Pkg where
  cdnUrl : String
  checksumMd5 : String
  checksumSha1 : String
  checksumSha256 : String
  checksumSha512 : String
deriving DecidableEq

/-- The four-way comparison of lines 89, 109 and 117: the downloaded file's
checksums mismatch the metadata exactly when at least one of the four
algorithms differs under exact string comparison. -/
def mismatchB (l : Checksums) (p : Pkg) : Bool :=
  (l.MD5 != p.checksumMd5) || (l.SHA1 != p.checksumSha1) ||
    (l.SHA256 != p.checksumSha256) || (l.SHA512 != p.checksumSha512)

/-- The error message accumulation of lines 118-130: one
`checksumMismatchError` line, terminated by a newline, appended for each
algorithm whose local and metadata checksums differ, in the fixed order
MD5, SHA1, SHA256, SHA512. -/
def errMsgFor (l : Checksums) (p : Pkg) : String :=
  (if l.MD5 != p.checksumMd5 then
      checksumMismatchError l.MD5 p.checksumMd5 ("MD5") ++ "\n" else "") ++
  (if l.SHA1 != p.checksumSha1 then
      checksumMismatchError l.SHA1 p.checksumSha1 ("SHA1") ++ "\n" else "") ++
  (if l.SHA256 != p.checksumSha256 then
      checksumMismatchError l.SHA256 p.checksumSha256 ("SHA256") ++ "\n" else "") ++
  (if l.SHA512 != p.checksumSha512 then
      checksumMismatchError l.SHA512 p.checksumSha512 ("SHA512") ++ "\n" else "")

/-- The four digest algorithms of the protocol. -/
inductive Algo where
  | md5
  | sha1
  | sha256
  | sha512
deriving DecidableEq

/-- The algorithm name as it appears in the source's report lines. -/
def algoName : Algo → String
  | .md5 => "MD5"
  | .sha1 => "SHA1"
  | .sha256 => "SHA256"
  | .sha512 => "SHA512"

/-- The observed (locally computed) digest for one algorithm. -/
def observedOf (c : Checksums) : Algo → String
  | .md5 => c.MD5
  | .sha1 => c.SHA1
  | .sha256 => c.SHA256
  | .sha512 => c.SHA512

/-- The expected digest (from the metadata) for one algorithm. -/
def expectedOf (p : Pkg) : Algo → String
  | .md5 => p.checksumMd5
  | .sha1 => p.checksumSha1
  | .sha256 => p.checksumSha256
  | .sha512 => p.checksumSha512

/-- The report line the source emits for one mismatched algorithm: the call
`checksumMismatchError(local, remote, name)` of lines 120/123/126/129. -/
def mismatchLine (c : Checksums) (p : Pkg) (a : Algo) : String :=
  checksumMismatchError (observedOf c a) (expectedOf p a) (algoName a)

/-- The four algorithms in the order the source checks them. -/
def allAlgos : List Algo := [Algo.md5, Algo.sha1, Algo.sha256, Algo.sha512]

/-- The algorithms whose observed and expected digests differ, in source
order. -/
def mismatchedAlgos (c : Checksums) (p : Pkg) : List Algo :=
  allAlgos.filter (fun a => observedOf c a != expectedOf p a)

/-- Case-insensitive hexadecimal digest comparison, as the specification's
invariant phrases it. -/
def hexEqCI (a b : String) : Bool :=
  a.toLower == b.toLower

/-! ### Go `path.Base`, `path.Join`, `path.Clean` (called at lines 183-184) -/

/-- The backtracking pop of `path.Clean`'s `..` case: after the unconditional
`out.w--`, keep decrementing while `out.w > dotdot` and the character just
removed is not a slash.  The output buffer is kept in reverse order. -/
def backtrackLoop (dotdot : Nat) (removed : Char) : List Char → List Char
  | [] => []
  | d :: rest =>
    if rest.length + 1 > dotdot && removed != '/' then backtrackLoop dotdot d rest
    else d :: rest

/-- The whole `..` backtrack of `path.Clean`: one unconditional pop followed
by `backtrackLoop`. -/
def backtrack (dotdot : Nat) : List Char → List Char
  | [] => []
  | c :: rest => backtrackLoop dotdot c rest

/-- The main loop of Go's `path.Clean`, fused with its element-copy inner
loop (`copying = true` while inside a path element).  `out` is the output
buffer in reverse order, `dotdot` the limit below which `..` must not
backtrack.  When the copy loop stops at a slash the main loop immediately
skips that slash, so the two steps are fused into one transition. -/
def cleanLoop (rooted copying : Bool) (out : List Char) (dotdot : Nat) : List Char → List Char
  | [] => out
  | c :: rest =>
    if copying then
      if c == '/' then cleanLoop rooted false out dotdot rest
      else cleanLoop rooted true (c :: out) dotdot rest
    else
      if c == '/' then cleanLoop rooted false out dotdot rest
      else if c == '.' then
        match rest with
        | [] => out
        | '/' :: rest2 => cleanLoop rooted false out dotdot rest2
        | '.' :: rest2 =>
          if rest2.isEmpty || rest2.head? == some '/' then
            if out.length > dotdot then
              cleanLoop rooted false (backtrack dotdot out) dotdot rest2
            else if !rooted then
              let out1 := if out.length > 0 then '/' :: out else out
              cleanLoop rooted false ('.' :: '.' :: out1) (2 + out1.length) rest2
            else cleanLoop rooted false out dotdot rest2
          else
            let out1 := if (rooted && out.length != 1) || (!rooted && out.length != 0)
              then '/' :: out else out
            cleanLoop rooted true ('.' :: '.' :: out1) dotdot rest2
        | c2 :: rest2 =>
          let out1 := if (rooted && out.length != 1) || (!rooted && out.length != 0)
            then '/' :: out else out
          cleanLoop rooted true (c2 :: '.' :: out1) dotdot rest2
      else
        let out1 := if (rooted && out.length != 1) || (!rooted && out.length != 0)
          then '/' :: out else out
        cleanLoop rooted true (c :: out1) dotdot rest

/-- Go's `path.Clean`. -/
def pathClean (p : String) : String :=
  if p == "" then "."
  else
    let cs := p.toList
    let rooted := cs.head? == some '/'
    let out :=
      if rooted then cleanLoop true false ['/'] 1 cs.tail
      else cleanLoop false false [] 0 cs
    if out.isEmpty then "." else String.mk out.reverse

/-- Go's `path.Join` restricted to the two elements the source passes:
concatenate the nonempty elements with a slash and clean the result; two
empty elements yield the empty string without cleaning. -/
def pathJoin (a b : String) : String :=
  if a == "" && b == "" then ""
  else if a == "" then pathClean b
  else if b == "" then pathClean a
  else pathClean (a ++ "/" ++ b)

/-- Go's `path.Base`: strip trailing slashes, keep everything after the last
remaining slash; the empty path gives a dot, an all-slash path gives a
slash. -/
def pathBase (p : String) : String :=
  if p == "" then "."
  else
    let cs := (p.toList.reverse.dropWhile (fun c => c == '/')).reverse
    let last := (cs.reverse.takeWhile (fun c => c != '/')).reverse
    if last.isEmpty then "/" else String.mk last

/-! ### `downloadPackage` (lines 149-198) -/

/-- The transport's answer to the executed request: Go exposes the status
code the protocol inspects. -/
structure HttpResponse where
  statusCode : Nat
deriving DecidableEq

deriving instance DecidableEq for Except

/-- The results the external collaborators produce during one
`downloadPackage` invocation: the error (if any) of `http.NewRequest`, the
error (if any) of the `url.Parse` call in the cache-busting branch, the
outcome of `client.Do`, and the errors (if any) of `os.Create` and
`io.Copy`. -/
structure DLEnv where
  newRequestErr : Option String
  parseErr : Option String
  doResult : Except String HttpResponse
  createErr : Option String
  copyErr : Option String
deriving DecidableEq

/-- The `os.Create` / `io.Copy` block of lines 186-197: create the output
file, stream the response body into it, and return the output path. -/
def streamToFile (env : DLEnv) (outputPath : String) : Except String String :=
  match env.createErr with
  | some e => .error e
  | none =>
    match env.copyErr with
    | some e => .error e
    | none => .ok outputPath

/-- Embeds `downloadPackage` (lines 149-198).  Build the request (line 150);
when `bustCache` is set, re-parse the URL to rewrite its query string with
the current timestamp (lines 158-170; the rewrite only changes the outgoing
request, whose answer `env.doResult` already fixes); execute it (line 172);
treat any status other than 200 (`http.StatusOK`) as fatal (lines 178-180);
otherwise derive the output path from the original URL string —
`path.Join(downloadDir, path.Base(downloadUrl))`, lines 183-184 — and stream
the body there. -/
def downloadPackage (env : DLEnv) (downloadUrl downloadDir : String)
    (bustCache : Bool) : Except String String :=
  match env.newRequestErr with
  | some e => .error e
  | none =>
    match (if bustCache then env.parseErr else none) with
    | some e => .error e
    | none =>
      match env.doResult with
      | .error e => .error e
      | .ok resp =>
        if resp.statusCode != 200 then
          .error ("failed to download file: " ++ downloadUrl ++ ", status code: " ++
            toString resp.statusCode)
        else
          streamToFile env (pathJoin downloadDir (pathBase downloadUrl))

/-! ### `dataSourcePackageRead` (lines 35-147) -/

/-- The terminal outcome of one read, as the specification names them:
`Verified` when a comparison found no mismatch (nil return of line 146
after the checks of lines 89/109/117 passed), `AcceptedWithMismatch` when
both comparisons failed but `ignore_checksums` was set (lines 110-115),
`SkippedDownload` for the `download = false` branch (lines 141-144), which
returns the CDN URL and passes the metadata checksums through unverified.
Each outcome carries the caller-visible `output_path` and the checksum
fields as finally set. -/
inductive Outcome where
  | Verified (outputPath : String) (digests : Checksums)
  | AcceptedWithMismatch (outputPath : String) (digests : Checksums)
  | SkippedDownload (outputPath : String) (digests : Checksums)
deriving DecidableEq

/-- The metadata checksums as a `Checksums` record (the pass-through of
lines 62-65). -/
def pkgChecksums (p : Pkg) : Checksums :=
  ⟨p.checksumMd5, p.checksumSha1, p.checksumSha256, p.checksumSha512⟩

/-- The inputs one `dataSourcePackageRead` call consumes: the configuration
flags read from the resource data (lines 40-42), the metadata lookup's
result (lines 44-48), the collaborator results for the first and second
`downloadPackage` invocation, and the results of the first and second
`calculateChecksums` invocation (each reads the file the corresponding
download wrote, so each attempt has its own result). -/
structure ReadEnv where
  download : Bool
  downloadDir : String
  ignoreChecksums : Bool
  pkgResult : Except String Pkg
  dlenv1 : DLEnv
  dlenv2 : DLEnv
  cs1 : Except String Checksums
  cs2 : Except String Checksums

/-- What one `dataSourcePackageRead` call did: the download invocations in
order (recording the `bustCache` argument each received), the number of
`calculateChecksums` invocations, and the propagated error or terminal
outcome. -/
structure ReadResult where
  fetches : List Bool
  checksumCalls : Nat
  result : Except String Outcome

/-- Embeds the verification core of `dataSourcePackageRead` (lines 35-147).
Mirrors the source's control flow: metadata lookup (lines 44-48), the
`download` branch (line 69), first download with `bustCache = false`
(line 70), first digest computation (line 78), the comparison of line 89,
on mismatch the retry with `bustCache = true` (line 91), the second digest
computation (line 98), the comparison of line 109, the `ignore_checksums`
branch (lines 110-115), the redundant re-check of line 117 guarding the
mismatch report (lines 118-131), and the final checksum projection of
lines 137-140.  The `output_path` field is set once, at line 74, from the
first download's path; the retry's path (line 91) shadows the outer
variable and is never stored. -/
def dataSourcePackageRead (env : ReadEnv) : ReadResult :=
  match env.pkgResult with
  | .error e => ⟨[], 0, .error e⟩
  | .ok pkg =>
    if env.download then
      match downloadPackage env.dlenv1 pkg.cdnUrl env.downloadDir false with
      | .error e => ⟨[false], 0, .error e⟩
      | .ok outputPath =>
        match env.cs1 with
        | .error e => ⟨[false], 1, .error e⟩
        | .ok local1 =>
          if mismatchB local1 pkg then
            match downloadPackage env.dlenv2 pkg.cdnUrl env.downloadDir true with
            | .error e => ⟨[false, true], 1, .error e⟩
            | .ok _outputPath2 =>
              match env.cs2 with
              | .error e => ⟨[false, true], 2, .error e⟩
              | .ok local2 =>
                if mismatchB local2 pkg then
                  if env.ignoreChecksums then
                    ⟨[false, true], 2, .ok (.AcceptedWithMismatch outputPath local2)⟩
                  else if mismatchB local2 pkg then
                    ⟨[false, true], 2, .error (errMsgFor local2 pkg)⟩
                  else
                    ⟨[false, true], 2, .ok (.Verified outputPath local2)⟩
                else
                  ⟨[false, true], 2, .ok (.Verified outputPath local2)⟩
          else ⟨[false], 1, .ok (.Verified outputPath local1)⟩
    else ⟨[], 0, .ok (.SkippedDownload pkg.cdnUrl (pkgChecksums pkg))⟩

/-- True exactly when the read ended in the `Verified` outcome. -/
def resultIsVerified : Except String Outcome → Bool
  | .ok (.Verified _ _) => true
  | _ => false

/-! ### `calculateChecksums` (lines 200-224) -/

/-- The state of one Go `hash.Hash` accumulator: per the `hash.Hash`
contract, `Write` never fails and the eventual digest depends on exactly
the byte sequence absorbed so far. -/
structure HashState where
  absorbed : List Nat
deriving DecidableEq

/-- A fresh accumulator (`md5.New()` and friends, lines 209-212). -/
def hashNew : HashState := ⟨[]⟩

/-- One `Write` call: absorb the chunk. -/
def hashWrite (s : HashState) (p : List Nat) : HashState := ⟨s.absorbed ++ p⟩

/-- The four accumulators of lines 209-212. -/
structure FourHashes where
  md5h : HashState
  sha1h : HashState
  sha256h : HashState
  sha512h : HashState

/-- One `Write` on the `io.MultiWriter` of line 214: fan the chunk out to
all four accumulators. -/
def multiWriterWrite (s : FourHashes) (p : List Nat) : FourHashes :=
  ⟨hashWrite s.md5h p, hashWrite s.sha1h p, hashWrite s.sha256h p, hashWrite s.sha512h p⟩

/-- The `io.Copy` of line 214: feed the file's chunks, in order, through
the multi-writer, starting from four fresh accumulators. -/
def ioCopyMulti (chunks : List (List Nat)) : FourHashes :=
  chunks.foldl multiWriterWrite ⟨hashNew, hashNew, hashNew, hashNew⟩

/-- Embeds `calculateChecksums` (lines 200-224) on a successfully opened and
fully read file.  The file's bytes arrive as the chunk sequence `io.Copy`
hands to the multi-writer; `hmd5`, `hsha1`, `hsha256`, `hsha512` are the
pure digest functions the library accumulators compute — each maps an
absorbed byte sequence to `hex.EncodeToString(h.Sum(nil))`, the lowercase
hex digest of those bytes (lines 218-221). -/
def calculateChecksums (hmd5 hsha1 hsha256 hsha512 : List Nat → String)
    (chunks : List (List Nat)) : Checksums :=
  ⟨hmd5 (ioCopyMulti chunks).md5h.absorbed,
   hsha1 (ioCopyMulti chunks).sha1h.absorbed,
   hsha256 (ioCopyMulti chunks).sha256h.absorbed,
   hsha512 (ioCopyMulti chunks).sha512h.absorbed⟩

/-! ## Theorems -/

/-- Folding the multi-writer over a chunk sequence appends the
concatenation of the chunks to every accumulator's absorbed bytes. -/
theorem foldl_multiWriterWrite (chunks : List (List Nat)) (s : FourHashes) :
    chunks.foldl multiWriterWrite s =
      ⟨⟨s.md5h.absorbed ++ chunks.flatten⟩, ⟨s.sha1h.absorbed ++ chunks.flatten⟩,
       ⟨s.sha256h.absorbed ++ chunks.flatten⟩, ⟨s.sha512h.absorbed ++ chunks.flatten⟩⟩ := by
  induction chunks generalizing s with
  | nil =>
    obtain ⟨⟨a⟩, ⟨b⟩, ⟨c⟩, ⟨d⟩⟩ := s
    simp
  | cons c cs ih =>
    simp [List.foldl_cons, ih, multiWriterWrite, hashWrite]

/-- C4: for every byte sequence (every chunking of it delivered by
`io.Copy`), the single-pass multi-accumulator computation of
`calculateChecksums` returns exactly the digests obtained by running each
of MD5, SHA-1, SHA-256 and SHA-512 independently over the whole byte
sequence. -/
theorem C4_single_pass_equals_independent
    (hmd5 hsha1 hsha256 hsha512 : List Nat → String) (chunks : List (List Nat)) :
    calculateChecksums hmd5 hsha1 hsha256 hsha512 chunks =
      ⟨hmd5 chunks.flatten, hsha1 chunks.flatten, hsha256 chunks.flatten, hsha512 chunks.flatten⟩ := by
  simp [calculateChecksums, ioCopyMulti, foldl_multiWriterWrite, hashNew]

/-- C3: evaluating the source's report-line builder at a concrete mismatch
(observed MD5 digest `aaaa`, expected MD5 digest `bbbb`) shows that the
emitted line is `Checksum mismatch (aaaa): expected=bbbb, got=MD5` — the
observed digest sits inside the parentheses and the algorithm name follows
`got=`, not the other way round as both the specification and the
function's own parameter naming intend. -/
theorem C3_report_line_eval :
    checksumMismatchError ("aaaa") ("bbbb") ("MD5") =
      "Checksum mismatch (aaaa): expected=bbbb, got=MD5" := by rfl

/-- A successful `downloadPackage` always returns
`path.Join(downloadDir, path.Base(downloadUrl))`, computed from the
original URL string. -/
theorem downloadPackage_ok_path (env : DLEnv) (u d : String) (bc : Bool) (p : String)
    (h : downloadPackage env u d bc = .ok p) : p = pathJoin d (pathBase u) := by
  simp only [downloadPackage, streamToFile] at h
  repeat' split at h
  all_goals simp_all

/-- C10: the local output path returned by `downloadPackage` is the same
whether `bustCache` is false or true — it is computed from the original URL
string and the destination directory only, unaffected by the cache-busting
time parameter — so a successful retry writes to exactly the path the first
attempt wrote. -/
theorem C10_path_independent_of_bustcache (e1 e2 : DLEnv) (u d p1 p2 : String)
    (h1 : downloadPackage e1 u d false = .ok p1)
    (h2 : downloadPackage e2 u d true = .ok p2) :
    p1 = p2 ∧ p1 = pathJoin d (pathBase u) := by
  have a1 := downloadPackage_ok_path e1 u d false p1 h1
  have a2 := downloadPackage_ok_path e2 u d true p2 h2
  exact ⟨a1.trans a2.symm, a1⟩

/-- A download environment in which every collaborator succeeds and the
transport answers 200. -/
def dlenvOk : DLEnv := ⟨none, none, .ok ⟨200⟩, none, none⟩

/-- Witness for C10 at a concrete URL and directory. -/
theorem C10_witness :
    ("/tmp/file.tgz" : String) = "/tmp/file.tgz" ∧
      ("/tmp/file.tgz" : String) = pathJoin ("/tmp") (pathBase ("https://cdn.example/ns/file.tgz")) :=
  C10_path_independent_of_bustcache dlenvOk dlenvOk ("https://cdn.example/ns/file.tgz")
    ("/tmp") ("/tmp/file.tgz") ("/tmp/file.tgz") (by rfl) (by rfl)

/-- A download environment whose transport answers 201 Created. -/
def dlenv201 : DLEnv := ⟨none, none, .ok ⟨201⟩, none, none⟩

/-- C8 counterexample: 201 lies in the 2xx range, yet `downloadPackage`
fails with the HTTP status error, because the source accepts exactly
status 200 (`resp.StatusCode != http.StatusOK`), not the whole 2xx
range. -/
theorem C8_counterexample :
    (200 ≤ 201 ∧ 201 < 300) ∧
      downloadPackage dlenv201 ("https://cdn.example/ns/file.tgz") ("/tmp") false =
        .error ("failed to download file: https://cdn.example/ns/file.tgz, status code: 201") :=
  ⟨by decide, by rfl⟩

/-- C8 (amended): a download attempt fails with an HTTP status error
exactly when the response status is not 200 (only a 200 response proceeds
to streaming the body); on such a failure the error propagates immediately
out of the read — exactly one fetch happened, no second attempt is made and
no checksum computation occurs. -/
theorem C8_status_not_200_fatal (env : ReadEnv) (pkg : Pkg) (resp : HttpResponse)
    (hpkg : env.pkgResult = .ok pkg) (hd : env.download = true)
    (hreq : env.dlenv1.newRequestErr = none)
    (hdo : env.dlenv1.doResult = .ok resp) :
    (resp.statusCode ≠ 200 →
      downloadPackage env.dlenv1 pkg.cdnUrl env.downloadDir false =
        .error ("failed to download file: " ++ pkg.cdnUrl ++ ", status code: " ++
          toString resp.statusCode) ∧
      dataSourcePackageRead env =
        ⟨[false], 0, .error ("failed to download file: " ++ pkg.cdnUrl ++ ", status code: " ++
          toString resp.statusCode)⟩) ∧
    (resp.statusCode = 200 →
      downloadPackage env.dlenv1 pkg.cdnUrl env.downloadDir false =
        streamToFile env.dlenv1 (pathJoin env.downloadDir (pathBase pkg.cdnUrl))) := by
  constructor
  · intro hne
    have hb : (resp.statusCode != 200) = true := by simpa [bne_iff_ne] using hne
    have hdl : downloadPackage env.dlenv1 pkg.cdnUrl env.downloadDir false =
        .error ("failed to download file: " ++ pkg.cdnUrl ++ ", status code: " ++
          toString resp.statusCode) := by
      simp [downloadPackage, hreq, hdo, hb]
    exact ⟨hdl, by simp [dataSourcePackageRead, hpkg, hd, hdl]⟩
  · intro he
    simp [downloadPackage, hreq, hdo, he]

/-- A download environment whose transport answers 404. -/
def dlenv404 : DLEnv := ⟨none, none, .ok ⟨404⟩, none, none⟩

/-- Package metadata used by several concrete runs. -/
def pkgV : Pkg := ⟨"https://cdn.example/ns/file.tgz", "aa", "bb", "cc", "dd"⟩

/-- Observed checksums equal to `pkgV`'s metadata. -/
def csV : Checksums := ⟨"aa", "bb", "cc", "dd"⟩

/-- A read whose first download attempt receives a 404. -/
def envStatus404Run : ReadEnv := ⟨true, "/tmp", false, .ok pkgV, dlenv404, dlenvOk, .ok csV, .ok csV⟩

/-- Witness for C8 at a concrete 404 response. -/
theorem C8_witness :
    dataSourcePackageRead envStatus404Run =
      ⟨[false], 0,
        .error ("failed to download file: " ++ "https://cdn.example/ns/file.tgz" ++
          ", status code: " ++ toString (404 : Nat))⟩ :=
  ((C8_status_not_200_fatal envStatus404Run pkgV ⟨404⟩ rfl rfl rfl rfl).1 (by decide)).2

/-- A `Verified` outcome only arises from a comparison that found no
mismatch: its carried observed digests satisfy `mismatchB digs pkg =
false`. -/
theorem verified_digests_match (env : ReadEnv) (pkg : Pkg) (p : String) (digs : Checksums)
    (hpkg : env.pkgResult = .ok pkg)
    (hv : (dataSourcePackageRead env).result = .ok (.Verified p digs)) :
    mismatchB digs pkg = false := by
  simp only [dataSourcePackageRead, hpkg] at hv
  repeat' split at hv
  all_goals simp_all

/-- C1: the outcome of a read is `Verified` only if, for every algorithm
present in the expected digest set (a nonempty metadata checksum), the
observed digest the outcome carries equals the expected digest under
case-insensitive hexadecimal comparison.  (The source compares exactly, so
the case-insensitive comparison holds a fortiori.) -/
theorem C1_verified_requires_ci_match (env : ReadEnv) (pkg : Pkg) (p : String)
    (digs : Checksums) (hpkg : env.pkgResult = .ok pkg)
    (hv : (dataSourcePackageRead env).result = .ok (.Verified p digs)) :
    (pkg.checksumMd5 ≠ "" → hexEqCI digs.MD5 pkg.checksumMd5 = true) ∧
    (pkg.checksumSha1 ≠ "" → hexEqCI digs.SHA1 pkg.checksumSha1 = true) ∧
    (pkg.checksumSha256 ≠ "" → hexEqCI digs.SHA256 pkg.checksumSha256 = true) ∧
    (pkg.checksumSha512 ≠ "" → hexEqCI digs.SHA512 pkg.checksumSha512 = true) := by
  have hmm := verified_digests_match env pkg p digs hpkg hv
  have h4 : digs.MD5 = pkg.checksumMd5 ∧ digs.SHA1 = pkg.checksumSha1 ∧
      digs.SHA256 = pkg.checksumSha256 ∧ digs.SHA512 = pkg.checksumSha512 := by
    simpa [mismatchB, Bool.or_eq_false_iff, and_assoc] using hmm
  obtain ⟨e1, e2, e3, e4⟩ := h4
  refine ⟨fun _ => ?_, fun _ => ?_, fun _ => ?_, fun _ => ?_⟩ <;>
    simp [hexEqCI, e1, e2, e3, e4]

/-- A read in which the downloaded file's digests match the metadata on the
first attempt. -/
def envMatchRun : ReadEnv := ⟨true, "/tmp", false, .ok pkgV, dlenvOk, dlenvOk, .ok csV, .ok csV⟩

/-- Witness for C1 at a concrete verified run. -/
theorem C1_witness : hexEqCI csV.MD5 pkgV.checksumMd5 = true :=
  (C1_verified_requires_ci_match envMatchRun pkgV ("/tmp/file.tgz") csV rfl (by rfl)).1
    (by decide)

/-- C5: every read performs at most two downloads — either exactly one,
with `bustCache = false`, or exactly two, where the second always carries
`bustCache = true` and only happens after the first attempt's checksum
comparison found a mismatch; after the second comparison no further fetch
ever occurs. -/
theorem C5_at_most_two_fetches (env : ReadEnv) (pkg : Pkg)
    (hpkg : env.pkgResult = .ok pkg) (hd : env.download = true) :
    ((dataSourcePackageRead env).fetches = [false] ∨
      (dataSourcePackageRead env).fetches = [false, true]) ∧
    ((dataSourcePackageRead env).fetches = [false, true] →
      ∃ c1, env.cs1 = .ok c1 ∧ mismatchB c1 pkg = true) := by
  simp only [dataSourcePackageRead, hpkg, hd, if_true]
  cases h1 : downloadPackage env.dlenv1 pkg.cdnUrl env.downloadDir false with
  | error e => simp
  | ok p1 =>
    cases h2 : env.cs1 with
    | error e => simp
    | ok c1 =>
      cases h3 : mismatchB c1 pkg with
      | false => simp [h3]
      | true =>
        cases h4 : downloadPackage env.dlenv2 pkg.cdnUrl env.downloadDir true with
        | error e => simp [h2, h3]
        | ok p2 =>
          cases h5 : env.cs2 with
          | error e => simp [h2, h3]
          | ok c2 =>
            cases h6 : mismatchB c2 pkg with
            | false => simp [h2, h3, h6]
            | true =>
              cases h7 : env.ignoreChecksums with
              | false => simp [h2, h3, h6, h7]
              | true => simp [h2, h3, h6, h7]

/-- Witness for C5 at a concrete verified run. -/
theorem C5_witness :
    (dataSourcePackageRead envMatchRun).fetches = [false] ∨
      (dataSourcePackageRead envMatchRun).fetches = [false, true] :=
  (C5_at_most_two_fetches envMatchRun pkgV rfl rfl).1

/-- C9: every fatal error — a failed first download (transport, HTTP status
or file error), a failed first digest computation, a failed retry download,
or a failed second digest computation — aborts the read immediately: the
read's result is exactly that error with no outcome (so no caller-visible
path or digest fields), and the traces show that nothing ran after the
failing stage. -/
theorem C9_fatal_error_aborts (env : ReadEnv) (pkg : Pkg) (e : String)
    (hpkg : env.pkgResult = .ok pkg) (hd : env.download = true) :
    (downloadPackage env.dlenv1 pkg.cdnUrl env.downloadDir false = .error e →
      dataSourcePackageRead env = ⟨[false], 0, .error e⟩) ∧
    (∀ p1, downloadPackage env.dlenv1 pkg.cdnUrl env.downloadDir false = .ok p1 →
      env.cs1 = .error e →
      dataSourcePackageRead env = ⟨[false], 1, .error e⟩) ∧
    (∀ p1 c1, downloadPackage env.dlenv1 pkg.cdnUrl env.downloadDir false = .ok p1 →
      env.cs1 = .ok c1 → mismatchB c1 pkg = true →
      downloadPackage env.dlenv2 pkg.cdnUrl env.downloadDir true = .error e →
      dataSourcePackageRead env = ⟨[false, true], 1, .error e⟩) ∧
    (∀ p1 c1 p2, downloadPackage env.dlenv1 pkg.cdnUrl env.downloadDir false = .ok p1 →
      env.cs1 = .ok c1 → mismatchB c1 pkg = true →
      downloadPackage env.dlenv2 pkg.cdnUrl env.downloadDir true = .ok p2 →
      env.cs2 = .error e →
      dataSourcePackageRead env = ⟨[false, true], 2, .error e⟩) := by
  refine ⟨fun h1 => ?_, fun p1 h1 h2 => ?_, fun p1 c1 h1 h2 h3 h4 => ?_,
    fun p1 c1 p2 h1 h2 h3 h4 h5 => ?_⟩ <;>
    simp [dataSourcePackageRead, hpkg, hd, *]

/-- A read whose first digest computation fails with a local read error. -/
def envIoErrRun : ReadEnv :=
  ⟨true, "/tmp", false, .ok pkgV, dlenvOk, dlenvOk, .error ("io error"), .ok csV⟩

/-- Witness for C9: a concrete read aborted by a digest-computation
failure. -/
theorem C9_witness :
    dataSourcePackageRead envIoErrRun = ⟨[false], 1, .error ("io error")⟩ :=
  (C9_fatal_error_aborts envIoErrRun pkgV ("io error") rfl rfl).2.1 ("/tmp/file.tgz")
    (by rfl) rfl

/-- The source's sequential report accumulation equals the newline-joined
map over exactly the mismatched algorithms, in source order. -/
theorem errMsgFor_eq_join (l : Checksums) (p : Pkg) :
    errMsgFor l p =
      String.join ((mismatchedAlgos l p).map (fun a => mismatchLine l p a ++ "\n")) := by
  cases h1 : l.MD5 != p.checksumMd5 <;> cases h2 : l.SHA1 != p.checksumSha1 <;>
    cases h3 : l.SHA256 != p.checksumSha256 <;> cases h4 : l.SHA512 != p.checksumSha512 <;>
    · apply String.ext
      simp [errMsgFor, mismatchedAlgos, allAlgos, mismatchLine, observedOf, expectedOf,
        algoName, h1, h2, h3, h4, String.join_eq]

/-- C6: when both attempts mismatch and `ignore_checksums` is false, the
read fails with the newline-joined report that contains one line for each
algorithm whose expected and observed digests differ — and membership in
the reported algorithm list holds exactly for the differing algorithms, so
every matching algorithm is omitted. -/
theorem C6_failed_report_exact (env : ReadEnv) (pkg : Pkg) (p1 : String) (c1 : Checksums)
    (p2 : String) (c2 : Checksums)
    (hpkg : env.pkgResult = .ok pkg) (hd : env.download = true)
    (h1 : downloadPackage env.dlenv1 pkg.cdnUrl env.downloadDir false = .ok p1)
    (h2 : env.cs1 = .ok c1) (h3 : mismatchB c1 pkg = true)
    (h4 : downloadPackage env.dlenv2 pkg.cdnUrl env.downloadDir true = .ok p2)
    (h5 : env.cs2 = .ok c2) (h6 : mismatchB c2 pkg = true)
    (h7 : env.ignoreChecksums = false) :
    (dataSourcePackageRead env).result =
      .error (String.join ((mismatchedAlgos c2 pkg).map (fun a => mismatchLine c2 pkg a ++ "\n"))) ∧
    (Algo.md5 ∈ mismatchedAlgos c2 pkg ↔ c2.MD5 ≠ pkg.checksumMd5) ∧
    (Algo.sha1 ∈ mismatchedAlgos c2 pkg ↔ c2.SHA1 ≠ pkg.checksumSha1) ∧
    (Algo.sha256 ∈ mismatchedAlgos c2 pkg ↔ c2.SHA256 ≠ pkg.checksumSha256) ∧
    (Algo.sha512 ∈ mismatchedAlgos c2 pkg ↔ c2.SHA512 ≠ pkg.checksumSha512) := by
  refine ⟨?_, ?_, ?_, ?_, ?_⟩
  · rw [← errMsgFor_eq_join]
    simp [dataSourcePackageRead, hpkg, hd, h1, h2, h3, h4, h5, h6, h7]
  all_goals
    simp [mismatchedAlgos, allAlgos, List.mem_filter, observedOf, expectedOf]

/-- Package metadata for the specification's P4 example: only the SHA-256
digest will differ from the observed file. -/
def pkgP4 : Pkg := ⟨"https://cdn.example/ns/file.tgz", "m1", "s1", "aaa", "u1"⟩

/-- Observed checksums differing from `pkgP4` in SHA-256 only. -/
def csP4 : Checksums := ⟨"m1", "s1", "bbb", "u1"⟩

/-- A strict-mode read in which both attempts observe `csP4`. -/
def envStrictRun : ReadEnv :=
  ⟨true, "/tmp", false, .ok pkgP4, dlenvOk, dlenvOk, .ok csP4, .ok csP4⟩

/-- Witness for C6 at the P4 example: the report is the joined line list
for the single mismatched algorithm. -/
theorem C6_witness :
    (dataSourcePackageRead envStrictRun).result =
      .error (String.join ((mismatchedAlgos csP4 pkgP4).map
        (fun a => mismatchLine csP4 pkgP4 a ++ "\n"))) :=
  (C6_failed_report_exact envStrictRun pkgP4 ("/tmp/file.tgz") csP4 ("/tmp/file.tgz") csP4
    rfl rfl (by rfl) rfl (by decide) (by rfl) rfl (by decide) rfl).1

/-- C7: when both attempts mismatch and `ignore_checksums` is true, the
read succeeds with outcome `AcceptedWithMismatch` carrying the observed
digests of the downloaded file — which differ from the expected metadata
digests. -/
theorem C7_accepted_with_observed (env : ReadEnv) (pkg : Pkg) (p1 : String) (c1 : Checksums)
    (p2 : String) (c2 : Checksums)
    (hpkg : env.pkgResult = .ok pkg) (hd : env.download = true)
    (h1 : downloadPackage env.dlenv1 pkg.cdnUrl env.downloadDir false = .ok p1)
    (h2 : env.cs1 = .ok c1) (h3 : mismatchB c1 pkg = true)
    (h4 : downloadPackage env.dlenv2 pkg.cdnUrl env.downloadDir true = .ok p2)
    (h5 : env.cs2 = .ok c2) (h6 : mismatchB c2 pkg = true)
    (h7 : env.ignoreChecksums = true) :
    (dataSourcePackageRead env).result = .ok (.AcceptedWithMismatch p1 c2) ∧
      c2 ≠ pkgChecksums pkg := by
  constructor
  · simp [dataSourcePackageRead, hpkg, hd, h1, h2, h3, h4, h5, h6, h7]
  · intro hc
    rw [hc] at h6
    simp [mismatchB, pkgChecksums] at h6

/-- A lenient-mode read in which both attempts observe `csP4`. -/
def envIgnoreRun : ReadEnv :=
  ⟨true, "/tmp", true, .ok pkgP4, dlenvOk, dlenvOk, .ok csP4, .ok csP4⟩

/-- Witness for C7: the accepted outcome carries the observed digests. -/
theorem C7_witness :
    (dataSourcePackageRead envIgnoreRun).result =
      .ok (.AcceptedWithMismatch ("/tmp/file.tgz") csP4) :=
  (C7_accepted_with_observed envIgnoreRun pkgP4 ("/tmp/file.tgz") csP4 ("/tmp/file.tgz") csP4
    rfl rfl (by rfl) rfl (by decide) (by rfl) rfl (by decide) rfl).1

/-- Package metadata with all four checksums absent (empty strings). -/
def pkgAbsent : Pkg := ⟨"https://cdn.example/ns/file.tgz", "", "", "", ""⟩

/-- The observed digests of a downloaded file — nonempty hex strings, here
the standard digests of the empty byte sequence. -/
def csObs : Checksums :=
  ⟨"d41d8cd98f00b204e9800998ecf8427e",
   "da39a3ee5e6b4b0d3255bfef95601890afd80709",
   "e3b0c44298fc1c149afbf4c8996fb92427ae41e4649b934ca495991b7852b855",
   "cf83e1357eefb8bdf1542850d66d8007d620e4050b5715dc83f4a921d36ce9ce47d0d13c5d85f2b0ff8318d2877eec2f63b931bd47417a81a538327af927da3e"⟩

/-- A strict-mode read whose metadata asserts no checksum at all. -/
def envAbsentStrict : ReadEnv :=
  ⟨true, "/tmp", false, .ok pkgAbsent, dlenvOk, dlenvOk, .ok csObs, .ok csObs⟩

/-- C2 counterexample: with zero populated expected digests the comparison
does not trivially succeed — the concrete run performs two fetches (so a
second download does occur) and its outcome is not `Verified`. -/
theorem C2_counterexample :
    (dataSourcePackageRead envAbsentStrict).fetches = [false, true] ∧
      resultIsVerified (dataSourcePackageRead envAbsentStrict).result = false :=
  ⟨by rfl, by rfl⟩

/-- Holds when a digest computation succeeded and returned a nonempty MD5
digest (as real digest computations always do). -/
def csOkNonemptyMD5 : Except String Checksums → Bool
  | .ok c => c.MD5 != ""
  | .error _ => false

/-- Holds when a digest computation either failed or returned a nonempty
MD5 digest (as real digest computations always do). -/
def csErrOrNonemptyMD5 : Except String Checksums → Bool
  | .ok c => c.MD5 != ""
  | .error _ => true

/-- C2 (amended): when the metadata asserts no checksum at all (all four
expected digests are the empty string), the source compares each absent
entry as an empty string against the nonempty observed digest and counts it
as a mismatch: a second cache-busting fetch always occurs and the outcome
is never `Verified` (it is `AcceptedWithMismatch` under
`ignore_checksums`, otherwise the mismatch-report failure, or the retry's
own error). -/
theorem C2_absent_digests_still_mismatch (env : ReadEnv) (pkg : Pkg)
    (hpkg : env.pkgResult = .ok pkg) (hd : env.download = true)
    (habs1 : pkg.checksumMd5 = "") (habs2 : pkg.checksumSha1 = "")
    (habs3 : pkg.checksumSha256 = "") (habs4 : pkg.checksumSha512 = "")
    (hdl1 : ∃ p1, downloadPackage env.dlenv1 pkg.cdnUrl env.downloadDir false = .ok p1)
    (hc1 : csOkNonemptyMD5 env.cs1 = true)
    (hc2 : csErrOrNonemptyMD5 env.cs2 = true) :
    (dataSourcePackageRead env).fetches = [false, true] ∧
      resultIsVerified (dataSourcePackageRead env).result = false := by
  obtain ⟨p1, h1⟩ := hdl1
  cases hcs1 : env.cs1 with
  | error e => rw [hcs1] at hc1; simp [csOkNonemptyMD5] at hc1
  | ok c1 =>
    rw [hcs1] at hc1
    simp only [csOkNonemptyMD5] at hc1
    have hm1 : mismatchB c1 pkg = true := by
      simp [mismatchB, habs1, hc1]
    cases h4 : downloadPackage env.dlenv2 pkg.cdnUrl env.downloadDir true with
    | error e =>
      simp [dataSourcePackageRead, hpkg, hd, h1, hcs1, hm1, h4, resultIsVerified]
    | ok p2 =>
      cases hcs2 : env.cs2 with
      | error e =>
        simp [dataSourcePackageRead, hpkg, hd, h1, hcs1, hm1, h4, hcs2, resultIsVerified]
      | ok c2 =>
        rw [hcs2] at hc2
        simp only [csErrOrNonemptyMD5] at hc2
        have hm2 : mismatchB c2 pkg = true := by
          simp [mismatchB, habs1, hc2]
        cases hig : env.ignoreChecksums <;>
          simp [dataSourcePackageRead, hpkg, hd, h1, hcs1, hm1, h4, hcs2, hm2, hig,
            resultIsVerified]

/-- A lenient-mode read whose metadata asserts no checksum at all. -/
def envAbsentIgnore : ReadEnv :=
  ⟨true, "/tmp", true, .ok pkgAbsent, dlenvOk, dlenvOk, .ok csObs, .ok csObs⟩

/-- Witness for the amended C2 at a concrete lenient-mode run. -/
theorem C2_witness :
    (dataSourcePackageRead envAbsentIgnore).fetches = [false, true] ∧
      resultIsVerified (dataSourcePackageRead envAbsentIgnore).result = false :=
  C2_absent_digests_still_mismatch envAbsentIgnore pkgAbsent rfl rfl rfl rfl rfl rfl
    ⟨("/tmp/file.tgz"), by rfl⟩ (by decide) (by decide)

end Cloudsmith
